import Mathlib

/-
Verification development for the google-mcp server (src/server.py).

The Python source is shallowly embedded: each relevant function is a pure
Lean function over explicit models of its environment (the credential
directory, the Google API client, the JSON parser).  External collaborators
-- the Workspace REST endpoints, the OAuth token endpoint, the google-auth
credential object, and json.loads -- are passed in as function-typed
parameters, so theorems quantify over every possible behaviour of those
collaborators, while the control flow and string formatting are translated
line by line from src/server.py.
-/

namespace GoogleMCP

/-- Substring containment on strings: sub occurs contiguously inside s. -/
def strContains (s sub : String) : Prop :=
  ∃ p q, s = p ++ (sub ++ q)

/-- The string s begins with the string h. -/
def strStarts (s h : String) : Prop :=
  ∃ rest, s = h ++ rest

/-- Model of the Python str.split(sep) loop over the character list:
    accumulates the current field (reversed) and cuts at each separator.
    On exhausted input the pending field is emitted, so the empty string
    splits to a single empty field, exactly as in Python. -/
def pySplitGo (sep : Char) : List Char → List Char → List String
  | [], acc => [⟨acc.reverse⟩]
  | c :: rest, acc =>
    if c == sep then ⟨acc.reverse⟩ :: pySplitGo sep rest []
    else pySplitGo sep rest (c :: acc)

/-- Model of Python s.split(sep) for a one-character separator. -/
def pySplit (sep : Char) (s : String) : List String :=
  pySplitGo sep s.data []

/-- Model of Python s.strip(): drop whitespace from both ends. -/
def pyStrip (s : String) : String :=
  ⟨(((s.data.dropWhile Char.isWhitespace).reverse.dropWhile Char.isWhitespace).reverse)⟩

/-- Whether the file name n ends in the given suffix; models the filter
    performed by TOKEN_DIR.glob with a star-dot-json pattern in
    get_token_path (src/server.py line 35). -/
def strEndsWith (n suf : String) : Bool :=
  List.isPrefixOf suf.data.reverse n.data.reverse

/-- One file in the credential directory: its name, its st_mtime stamp
    (modelled as a Nat, only its ordering matters), and its contents. -/
structure TokenFile where
  name : String
  mtime : Nat
  content : String
deriving DecidableEq

/-- State of the credential directory TOKEN_DIR: whether the directory
    exists, and the files it holds. -/
structure CredDir where
  present : Bool
  files : List TokenFile
deriving DecidableEq

/-- The credential directory path (src/server.py line 27).  In the source
    it is Path.home() / ".google_workspace_mcp" / "credentials"; the
    environment-dependent home directory is abbreviated to a tilde.  The
    claims never depend on this value, only on the literal text around it. -/
def TOKEN_DIR : String :=
  "~/.google_workspace_mcp/credentials"

/-- Result of get_token_path: either the selected file or the message of
    the raised Exception. -/
inductive PathResult where
  | found (f : TokenFile)
  | err (msg : String)
deriving DecidableEq

/-- Python max with the st_mtime key over the nonempty list f :: fs:
    scans left to right keeping the current maximum, replacing it only on
    a strictly greater key, hence returning the first maximal element. -/
def maxByMtime (f : TokenFile) (fs : List TokenFile) : TokenFile :=
  fs.foldl (fun best g => if best.mtime < g.mtime then g else best) f

/-- get_token_path (src/server.py lines 29-42): fail if the directory is
    missing, collect the .json files, fail if there are none, otherwise
    return the most recently modified one. -/
def get_token_path (d : CredDir) : PathResult :=
  if !d.present then
    .err ("Credentials directory not found: " ++ TOKEN_DIR ++ "\nPlease run authenticate.py first.")
  else
    match d.files.filter (fun f => strEndsWith f.name (".json")) with
    | [] => .err ("No credential files found in " ++ TOKEN_DIR ++ "\nPlease run authenticate.py first.")
    | f :: fs => .found (maxByMtime f fs)

/-- Model of the google-auth Credentials object as used by get_credentials:
    whether an access token is present, whether it is expired, and the
    refresh token (None or a string).  In google-auth, valid is defined as
    token present and not expired. -/
structure Credentials where
  hasToken : Bool
  expired : Bool
  refresh_token : Option String
deriving DecidableEq

/-- google-auth Credentials.valid: a token is present and not expired. -/
def Credentials.valid (c : Credentials) : Bool :=
  c.hasToken && !c.expired

/-- Python truthiness of creds.refresh_token: a present, nonempty string. -/
def Credentials.hasRefreshToken (c : Credentials) : Bool :=
  match c.refresh_token with
  | none => false
  | some s => !(s == "")

/-- External collaborators of get_credentials: parsing a token file into a
    credential object (Credentials.from_authorized_user_file), the outcome
    of one refresh request against the token endpoint (creds.refresh), and
    serialization back to JSON (creds.to_json). -/
structure AuthEnv where
  load : String → Credentials
  refresh : Credentials → Credentials
  to_json : Credentials → String

/-- Result of get_credentials: the returned object or the message of the
    raised Exception. -/
inductive CredResult where
  | ok (c : Credentials)
  | err (msg : String)
deriving DecidableEq

/-- Full outcome of one get_credentials call: its result, the state of the
    credential directory afterwards, and how many refresh requests were
    issued against the token endpoint. -/
structure CredOutcome where
  result : CredResult
  dir : CredDir
  refreshCalls : Nat
deriving DecidableEq

/-- Writing a file in the credential directory: full replacement of the
    contents of the file with that name (open with mode w then write). -/
def CredDir.writeFile (d : CredDir) (n content : String) : CredDir :=
  { d with files := d.files.map fun f => if f.name == n then { f with content := content } else f }

/-- get_credentials (src/server.py lines 62-75): select the token file,
    load it, return it if valid; if expired with a refresh token, refresh
    once, overwrite the selected file with the refreshed JSON and return
    the refreshed object; otherwise raise. -/
def get_credentials (env : AuthEnv) (d : CredDir) : CredOutcome :=
  match get_token_path d with
  | .err e => ⟨.err e, d, 0⟩
  | .found tf =>
    let creds := env.load tf.content
    if creds.valid then ⟨.ok creds, d, 0⟩
    else if creds.expired && creds.hasRefreshToken then
      let refreshed := env.refresh creds
      ⟨.ok refreshed, d.writeFile tf.name (env.to_json refreshed), 1⟩
    else ⟨.err ("Credentials expired. Please run authenticate.py again."), d, 0⟩

/-- Stand-in for the value produced by json.loads on the values parameter
    of the sheet tools: a JSON array of rows, passed through unmodified
    into the request body. -/
abbrev SheetValues := List (List String)

/-- One values().update or values().append request as issued by the sheet
    tools: the exact arguments handed to the Sheets client. -/
structure SheetsCall where
  spreadsheetId : String
  range : String
  valueInputOption : String
  values : SheetValues
deriving DecidableEq

/-- External Sheets API: the updatedCells count reported for an update
    request and the updates.updatedRows count reported for an append
    request (the defaults of the .get lookups already applied). -/
structure SheetsApi where
  updatedCells : SheetsCall → Nat
  updatedRows : SheetsCall → Nat

/-- sheets_write (src/server.py lines 3224-3239).  loads models json.loads
    on the values string, none meaning the bare except branch is taken.
    The second component lists the requests issued to the Sheets API. -/
def sheets_write (api : SheetsApi) (loads : String → Option SheetValues)
    (spreadsheet_id range_name values : String) : String × List SheetsCall :=
  match loads values with
  | none => ("❌ Error: values must be valid JSON array", [])
  | some data =>
    let call : SheetsCall := ⟨spreadsheet_id, range_name, "USER_ENTERED", data⟩
    ("✅ Updated " ++ Nat.repr (api.updatedCells call) ++ " cells in range " ++ range_name, [call])

/-- sheets_append (src/server.py lines 3242-3257), same shape as
    sheets_write but issuing an append request. -/
def sheets_append (api : SheetsApi) (loads : String → Option SheetValues)
    (spreadsheet_id range_name values : String) : String × List SheetsCall :=
  match loads values with
  | none => ("❌ Error: values must be valid JSON array", [])
  | some data =>
    let call : SheetsCall := ⟨spreadsheet_id, range_name, "USER_ENTERED", data⟩
    ("✅ Appended " ++ Nat.repr (api.updatedRows call) ++ " row(s)", [call])

/-- The comma split with per-element strip applied to a file_ids parameter
    (src/server.py lines 1760 and 1794). -/
def splitIds (s : String) : List String :=
  (pySplit ',' s).map pyStrip

/-- Accumulator of the drive_batch_delete loop: success count, error
    count, and the collected error lines. -/
structure DeleteAcc where
  success_count : Nat
  error_count : Nat
  errors : List String
deriving DecidableEq

/-- One iteration of the drive_batch_delete loop over a file id: the
    delete call either succeeds (none) or raises with a message. -/
def deleteStep (api : String → Option String) (acc : DeleteAcc) (file_id : String) : DeleteAcc :=
  match api file_id with
  | none => ⟨acc.success_count + 1, acc.error_count, acc.errors⟩
  | some e => ⟨acc.success_count, acc.error_count + 1, acc.errors ++ [file_id ++ ": " ++ e]⟩

/-- Outcome of drive_batch_delete: the returned text, the ids for which a
    delete call was issued (in order), and the two counters of the loop. -/
structure BatchDeleteOutcome where
  output : String
  calls : List String
  success_count : Nat
  error_count : Nat
deriving DecidableEq

/-- The report built after the drive_batch_delete loop (src/server.py
    lines 1810-1818): the success line, then, when failures occurred, the
    failure count, up to ten error lines, and an ellipsis for the rest. -/
def batchDeleteOutput (success_count error_count : Nat) (errors : List String) : String :=
  if error_count > 0 then
    if errors.length > 10 then
      ((errors.take 10).foldl (fun o e => o ++ ("  - " ++ e ++ "\n"))
        (("✅ Deleted " ++ Nat.repr success_count ++ " file(s)\n") ++
         ("❌ Failed to delete " ++ Nat.repr error_count ++ " file(s):\n"))) ++
        ("  ... and " ++ Nat.repr (errors.length - 10) ++ " more errors\n")
    else
      (errors.take 10).foldl (fun o e => o ++ ("  - " ++ e ++ "\n"))
        (("✅ Deleted " ++ Nat.repr success_count ++ " file(s)\n") ++
         ("❌ Failed to delete " ++ Nat.repr error_count ++ " file(s):\n"))
  else "✅ Deleted " ++ Nat.repr success_count ++ " file(s)\n"

/-- drive_batch_delete (src/server.py lines 1790-1818): split the ids,
    issue one delete per id catching failures individually, then report
    the success count and, if any, the failure count with up to ten error
    lines. api models files().delete().execute() per id: none is success,
    some e an exception with message e. -/
def drive_batch_delete (api : String → Option String) (file_ids : String) : BatchDeleteOutcome :=
  let ids := splitIds file_ids
  let acc := ids.foldl (deleteStep api) ⟨0, 0, []⟩
  ⟨batchDeleteOutput acc.success_count acc.error_count acc.errors,
   ids, acc.success_count, acc.error_count⟩

/-- gmail_send (src/server.py lines 133-145): the MIME assembly and the
    base64url encoding of the raw message are external library calls that
    do not influence the returned text; sent_id models the id field of the
    messages().send response.  body and cc enter only the MIME payload. -/
def gmail_send (sent_id : String) (toAddr subject body : String) (cc : Option String) : String :=
  "✅ Email sent!\nMessage ID: " ++ sent_id ++ "\nTo: " ++ toAddr ++ "\nSubject: " ++ subject

/-- Outcome of one remote call: the decoded response payload, or the
    message of the exception it raised. -/
inductive ApiOutcome (α : Type) where
  | success (v : α)
  | failure (msg : String)
deriving DecidableEq

/-- lastModifyingUser of a revision as consumed by drive_list_revisions. -/
structure DriveUser where
  displayName : Option String
  emailAddress : Option String
deriving DecidableEq

/-- One entry of the revisions list, with the optional fields the
    formatter looks up via .get or an in-test. -/
structure Revision where
  id : String
  modifiedTime : Option String
  lastModifyingUser : Option DriveUser
  size : Option String
deriving DecidableEq

/-- The block printed for one revision at position idx (the loop body of
    drive_list_revisions, src/server.py lines 1156-1168). -/
def formatRevision (idx : Nat) (rev : Revision) : String :=
  "Version " ++ Nat.repr idx ++ ":\n" ++
  "  Revision ID: " ++ rev.id ++ "\n" ++
  "  Modified: " ++ rev.modifiedTime.getD ("N/A") ++ "\n" ++
  (match rev.lastModifyingUser with
   | none => ""
   | some u => "  Modified by: " ++ u.displayName.getD (u.emailAddress.getD ("Unknown")) ++ "\n") ++
  (match rev.size with
   | none => ""
   | some sz => "  Size: " ++ sz ++ " bytes\n") ++
  "\n"

/-- The enumerate loop of drive_list_revisions starting at index idx. -/
def formatRevisions (idx : Nat) : List Revision → String
  | [] => ""
  | r :: rs => formatRevision idx r ++ formatRevisions (idx + 1) rs

/-- drive_list_revisions (src/server.py lines 1139-1173).  api models the
    single revisions().list call, its success payload being the revisions
    field of the response with the empty-list default applied. -/
def drive_list_revisions (file_id : String) (api : ApiOutcome (List Revision)) : String :=
  match api with
  | .failure e =>
    "❌ Error listing revisions: " ++ e ++
      "\nNote: Revisions are only available for Google Docs, Sheets, and Slides."
  | .success revs =>
    match revs with
    | [] => "No revisions found for file " ++ file_id
    | r :: rs =>
      "Found " ++ Nat.repr (r :: rs).length ++ " revision(s) for file " ++ file_id ++ ":\n\n" ++
        formatRevisions 1 (r :: rs)

/-- One answer of a form response: the optional textAnswers field, whose
    answers list (empty default applied) holds the optional value of each
    text answer. -/
structure FormAnswer where
  textAnswers : Option (List (Option String))
deriving DecidableEq

/-- One entry of the responses list consumed by forms_list_responses; the
    answers dict is modelled as an association list in iteration order. -/
structure FormResponse where
  responseId : String
  lastSubmittedTime : Option String
  answers : Option (List (String × FormAnswer))
deriving DecidableEq

/-- The lines printed for the values of one answer. -/
def formatAnswerValues : List (Option String) → String
  | [] => ""
  | v :: vs => "  - " ++ v.getD ("N/A") ++ "\n" ++ formatAnswerValues vs

/-- The loop over the items of the answers dict; the question id is bound
    but unused in the source. -/
def formatAnswers : List (String × FormAnswer) → String
  | [] => ""
  | (_, a) :: rest =>
    (match a.textAnswers with
     | none => ""
     | some vals => formatAnswerValues vals) ++ formatAnswers rest

/-- The block printed for one form response at position idx (the loop body
    of forms_list_responses, src/server.py lines 5255-5266). -/
def formatFormResponse (idx : Nat) (r : FormResponse) : String :=
  "Response #" ++ Nat.repr idx ++ "\n" ++
  "Response ID: " ++ r.responseId ++ "\n" ++
  "Timestamp: " ++ r.lastSubmittedTime.getD ("N/A") ++ "\n" ++
  (match r.answers with
   | none => ""
   | some ans => "Answers:\n" ++ formatAnswers ans) ++
  "\n"

/-- The enumerate loop of forms_list_responses starting at index idx. -/
def formatFormResponses (idx : Nat) : List FormResponse → String
  | [] => ""
  | r :: rs => formatFormResponse idx r ++ formatFormResponses (idx + 1) rs

/-- forms_list_responses (src/server.py lines 5242-5271).  api models the
    single responses().list call, its success payload being the responses
    field with the empty-list default applied.  The form id does not
    appear in the output. -/
def forms_list_responses (form_id : String) (api : ApiOutcome (List FormResponse)) : String :=
  match api with
  | .failure e => "❌ Error listing responses: " ++ e
  | .success rs =>
    match rs with
    | [] => "No responses yet."
    | r :: rest =>
      "Found " ++ Nat.repr (r :: rest).length ++ " response(s):\n\n" ++
        formatFormResponses 1 (r :: rest)

/-- File metadata as requested by drive_batch_get_metadata: the id field
    is always present in a successful response, the others are looked up
    with defaults or an in-test. -/
structure FileMeta where
  id : String
  name : Option String
  mimeType : Option String
  size : Option String
  createdTime : Option String
deriving DecidableEq

/-- The block printed for one id by drive_batch_get_metadata: the
    formatted metadata on success, the caught-error line on failure. -/
def formatMetaBlock (file_id : String) (r : ApiOutcome FileMeta) : String :=
  match r with
  | .success f =>
    "📄 " ++ f.name.getD ("Unknown") ++ "\n" ++
    "   ID: " ++ f.id ++ "\n" ++
    "   Type: " ++ f.mimeType.getD ("Unknown") ++ "\n" ++
    (match f.size with
     | none => ""
     | some sz => "   Size: " ++ sz ++ " bytes\n") ++
    "   Created: " ++ f.createdTime.getD ("N/A") ++ "\n\n"
  | .failure e => "❌ Error getting " ++ file_id ++ ": " ++ e ++ "\n\n"

/-- drive_batch_get_metadata (src/server.py lines 1755-1786): split the
    ids, fetch metadata for at most the first twenty, catching failures
    per id, and append a trailing note when ids were left out.  The second
    component lists the ids for which a files().get call was issued. -/
def drive_batch_get_metadata (api : String → ApiOutcome FileMeta) (file_ids : String) :
    String × List String :=
  (if 20 < (splitIds file_ids).length then
     (((splitIds file_ids).take 20).foldl (fun o fid => o ++ formatMetaBlock fid (api fid))
       ("Metadata for " ++ Nat.repr (splitIds file_ids).length ++ " file(s):\n\n")) ++
       ("... and " ++ Nat.repr ((splitIds file_ids).length - 20) ++ " more files (limit: 20)\n")
   else
     ((splitIds file_ids).take 20).foldl (fun o fid => o ++ formatMetaBlock fid (api fid))
       ("Metadata for " ++ Nat.repr (splitIds file_ids).length ++ " file(s):\n\n"),
   (splitIds file_ids).take 20)

/-- A concrete refresh environment: loading yields an expired credential
    with refresh token, refreshing clears the expiry. -/
def envRefresh : AuthEnv :=
  ⟨fun _ => ⟨true, true, some ("r")⟩, fun c => ⟨true, false, c.refresh_token⟩, fun _ => "NEWJSON"⟩

/-- A concrete one-file credential directory holding the old token JSON. -/
def dirOneExpired : CredDir := ⟨true, [⟨"u.json", 3, "OLDJSON"⟩]⟩

/-- A concrete environment whose loaded credential object is expired and
    has no refresh token. -/
def envExpiredNoRefresh : AuthEnv :=
  ⟨fun _ => ⟨true, true, none⟩, fun c => c, fun _ => "J"⟩

/-- A concrete one-file credential directory. -/
def dirOnePlain : CredDir := ⟨true, [⟨"u.json", 1, "TOK"⟩]⟩

/-- A concrete environment whose loaded credential object is valid. -/
def envValid : AuthEnv :=
  ⟨fun _ => ⟨true, false, some ("r")⟩, fun c => c, fun _ => "J2"⟩

/-- A concrete one-file credential directory with a fresh token. -/
def dirOneValid : CredDir := ⟨true, [⟨"v.json", 7, "FRESH"⟩]⟩

/-- A concrete per-id delete behaviour in which only the second of the
    ids a, b, c fails. -/
def apiSecondFails : String → Option String :=
  fun i => if i == "b" then some ("boom") else none

/-- A comma separated list of twenty-one file ids. -/
def ids21 : String :=
  "a1,a2,a3,a4,a5,a6,a7,a8,a9,a10,a11,a12,a13,a14,a15,a16,a17,a18,a19,a20,a21"

/-- A concrete Sheets API behaviour for witnesses. -/
def sheetsApi0 : SheetsApi := ⟨fun _ => 0, fun _ => 0⟩

/-- A concrete JSON parser that rejects every input, modelling json.loads
    applied to a string that is not valid JSON. -/
def loadsFail : String → Option SheetValues := fun _ => none

theorem strContains_appendLeft (t : String) {s sub : String} (h : strContains s sub) :
    strContains (t ++ s) sub := by
  obtain ⟨p, q, hs⟩ := h
  exact ⟨t ++ p, q, by rw [hs, String.append_assoc]⟩

theorem strContains_appendRight (t : String) {s sub : String} (h : strContains s sub) :
    strContains (s ++ t) sub := by
  obtain ⟨p, q, hs⟩ := h
  refine ⟨p, q ++ t, ?_⟩
  rw [hs, String.append_assoc, String.append_assoc]

theorem strStarts_appendRight {s t : String} (h : strStarts s t) (u : String) :
    strStarts (s ++ u) t := by
  obtain ⟨r, hr⟩ := h
  exact ⟨r ++ u, by rw [hr, String.append_assoc]⟩

theorem strContains_of_starts {s t : String} (h : strStarts s t) : strContains s t := by
  obtain ⟨rest, hr⟩ := h
  exact ⟨"", rest, by rw [hr, String.empty_append]⟩

theorem maxByMtime_cons (f g : TokenFile) (gs : List TokenFile) :
    maxByMtime f (g :: gs) = maxByMtime (if f.mtime < g.mtime then g else f) gs := rfl

theorem maxByMtime_mem (f : TokenFile) (fs : List TokenFile) :
    maxByMtime f fs = f ∨ maxByMtime f fs ∈ fs := by
  induction fs generalizing f with
  | nil => exact Or.inl rfl
  | cons g gs ih =>
    rw [maxByMtime_cons]
    rcases ih (if f.mtime < g.mtime then g else f) with h | h
    · by_cases hlt : f.mtime < g.mtime
      · rw [h, if_pos hlt]
        exact Or.inr (List.mem_cons_self g gs)
      · rw [h, if_neg hlt]
        exact Or.inl rfl
    · exact Or.inr (List.mem_cons_of_mem g h)

theorem maxByMtime_ge (f : TokenFile) (fs : List TokenFile) :
    f.mtime ≤ (maxByMtime f fs).mtime ∧ ∀ g ∈ fs, g.mtime ≤ (maxByMtime f fs).mtime := by
  induction fs generalizing f with
  | nil =>
    refine ⟨Nat.le_refl _, ?_⟩
    intro g hg
    cases hg
  | cons g gs ih =>
    obtain ⟨hhead, hrest⟩ := ih (if f.mtime < g.mtime then g else f)
    have hf : f.mtime ≤ (if f.mtime < g.mtime then g else f).mtime := by
      by_cases hlt : f.mtime < g.mtime
      · rw [if_pos hlt]
        exact Nat.le_of_lt hlt
      · rw [if_neg hlt]
    have hg2 : g.mtime ≤ (if f.mtime < g.mtime then g else f).mtime := by
      by_cases hlt : f.mtime < g.mtime
      · rw [if_pos hlt]
      · rw [if_neg hlt]
        exact Nat.le_of_not_lt hlt
    refine ⟨?_, ?_⟩
    · rw [maxByMtime_cons]
      exact Nat.le_trans hf hhead
    · intro x hx
      rw [maxByMtime_cons]
      rcases List.mem_cons.mp hx with hx | hx
      · subst hx
        exact Nat.le_trans hg2 hhead
      · exact hrest x hx

/-- Claim C2: for every state of the credential directory with no token
    files (including a missing directory), get_token_path raises an error
    whose message mentions authenticate, and get_credentials propagates
    exactly that error without returning a credential object. -/
theorem no_token_files_fails_mentioning_authenticate (env : AuthEnv) (d : CredDir)
    (h : d.present = false ∨ d.files.filter (fun f => strEndsWith f.name (".json")) = []) :
    ∃ msg, get_token_path d = .err msg ∧ strContains msg ("authenticate") ∧
      get_credentials env d = ⟨.err msg, d, 0⟩ := by
  by_cases hp : d.present = true
  · have hf : d.files.filter (fun f => strEndsWith f.name (".json")) = [] := by
      rcases h with h | h
      · rw [hp] at h
        cases h
      · exact h
    refine ⟨"No credential files found in " ++ TOKEN_DIR ++ "\nPlease run authenticate.py first.",
      ?_, ?_, ?_⟩
    · simp [get_token_path, hp, hf]
    · exact ⟨"No credential files found in " ++ TOKEN_DIR ++ "\nPlease run ", ".py first.", by decide⟩
    · simp [get_credentials, get_token_path, hp, hf]
  · have hp' : d.present = false := by
      simpa using hp
    refine ⟨"Credentials directory not found: " ++ TOKEN_DIR ++ "\nPlease run authenticate.py first.",
      ?_, ?_, ?_⟩
    · simp [get_token_path, hp']
    · exact ⟨"Credentials directory not found: " ++ TOKEN_DIR ++ "\nPlease run ", ".py first.", by decide⟩
    · simp [get_credentials, get_token_path, hp']

theorem no_token_files_fails_mentioning_authenticate_witness :
    ((⟨false, []⟩ : CredDir).present = false ∨
      (⟨false, []⟩ : CredDir).files.filter (fun f => strEndsWith f.name (".json")) = []) ∧
    (∃ msg, get_token_path ⟨false, []⟩ = .err msg ∧ strContains msg ("authenticate") ∧
      get_credentials envValid ⟨false, []⟩ = ⟨.err msg, ⟨false, []⟩, 0⟩) :=
  ⟨Or.inl rfl,
   no_token_files_fails_mentioning_authenticate envValid ⟨false, []⟩ (Or.inl rfl)⟩

/-- Claim C3: for every existing credential directory holding at least one
    .json token file, get_token_path returns a .json file of the directory
    whose modification time is greatest among all its .json files. -/
theorem get_token_path_latest_mtime (d : CredDir)
    (hp : d.present = true)
    (hne : d.files.filter (fun f => strEndsWith f.name (".json")) ≠ []) :
    ∃ tf, get_token_path d = .found tf ∧
      tf ∈ d.files.filter (fun f => strEndsWith f.name (".json")) ∧
      ∀ g ∈ d.files.filter (fun f => strEndsWith f.name (".json")), g.mtime ≤ tf.mtime := by
  cases hfl : d.files.filter (fun f => strEndsWith f.name (".json")) with
  | nil => exact absurd hfl hne
  | cons f fs =>
    refine ⟨maxByMtime f fs, ?_, ?_, ?_⟩
    · simp [get_token_path, hp, hfl]
    · rcases maxByMtime_mem f fs with h | h
      · rw [h]
        exact List.mem_cons_self f fs
      · exact List.mem_cons_of_mem f h
    · intro g hg
      obtain ⟨hhead, hrest⟩ := maxByMtime_ge f fs
      rcases List.mem_cons.mp hg with hg | hg
      · subst hg
        exact hhead
      · exact hrest g hg

theorem get_token_path_latest_mtime_witness :
    (⟨true, [⟨"a.json", 1, "x"⟩, ⟨"b.json", 5, "y"⟩, ⟨"c.txt", 9, "z"⟩]⟩ : CredDir).present = true ∧
    (⟨true, [⟨"a.json", 1, "x"⟩, ⟨"b.json", 5, "y"⟩, ⟨"c.txt", 9, "z"⟩]⟩ : CredDir).files.filter
      (fun f => strEndsWith f.name (".json")) ≠ [] ∧
    (∃ tf, get_token_path ⟨true, [⟨"a.json", 1, "x"⟩, ⟨"b.json", 5, "y"⟩, ⟨"c.txt", 9, "z"⟩]⟩ = .found tf ∧
      tf ∈ (⟨true, [⟨"a.json", 1, "x"⟩, ⟨"b.json", 5, "y"⟩, ⟨"c.txt", 9, "z"⟩]⟩ : CredDir).files.filter
        (fun f => strEndsWith f.name (".json")) ∧
      ∀ g ∈ (⟨true, [⟨"a.json", 1, "x"⟩, ⟨"b.json", 5, "y"⟩, ⟨"c.txt", 9, "z"⟩]⟩ : CredDir).files.filter
        (fun f => strEndsWith f.name (".json")), g.mtime ≤ tf.mtime) :=
  ⟨rfl, by decide,
   get_token_path_latest_mtime ⟨true, [⟨"a.json", 1, "x"⟩, ⟨"b.json", 5, "y"⟩, ⟨"c.txt", 9, "z"⟩]⟩
     rfl (by decide)⟩

/-- Claim C1: when the selected token file loads to an expired credential
    object carrying a refresh token, get_credentials issues exactly one
    refresh request, overwrites the selected file in place with the
    refreshed token JSON, and returns the refreshed object. -/
theorem get_credentials_expired_refreshable (env : AuthEnv) (d : CredDir) (tf : TokenFile)
    (hsel : get_token_path d = .found tf)
    (hexp : (env.load tf.content).expired = true)
    (href : (env.load tf.content).hasRefreshToken = true) :
    get_credentials env d =
      ⟨.ok (env.refresh (env.load tf.content)),
       d.writeFile tf.name (env.to_json (env.refresh (env.load tf.content))), 1⟩ := by
  unfold get_credentials
  rw [hsel]
  simp [Credentials.valid, hexp, href]

theorem get_credentials_expired_refreshable_witness :
    get_token_path dirOneExpired = .found ⟨"u.json", 3, "OLDJSON"⟩ ∧
    (envRefresh.load ("OLDJSON")).expired = true ∧
    (envRefresh.load ("OLDJSON")).hasRefreshToken = true ∧
    get_credentials envRefresh dirOneExpired =
      ⟨.ok (envRefresh.refresh (envRefresh.load ("OLDJSON"))),
       dirOneExpired.writeFile ("u.json")
         (envRefresh.to_json (envRefresh.refresh (envRefresh.load ("OLDJSON")))), 1⟩ :=
  ⟨by decide, by decide, by decide,
   get_credentials_expired_refreshable envRefresh dirOneExpired ⟨"u.json", 3, "OLDJSON"⟩
     (by decide) (by decide) (by decide)⟩

/-- Claim C4 (counterexample): at a selected credential file whose loaded
    object is expired with no refresh token, get_credentials does not fail
    with the message credentials expired, re-authenticate; it raises a
    generic exception reading Credentials expired. Please run
    authenticate.py again. -/
theorem expired_no_refresh_message_counterexample :
    (envExpiredNoRefresh.load ("TOK")).expired = true ∧
    (envExpiredNoRefresh.load ("TOK")).hasRefreshToken = false ∧
    get_credentials envExpiredNoRefresh dirOnePlain ≠
      ⟨.err ("credentials expired, re-authenticate"), dirOnePlain, 0⟩ ∧
    get_credentials envExpiredNoRefresh dirOnePlain =
      ⟨.err ("Credentials expired. Please run authenticate.py again."), dirOnePlain, 0⟩ := by
  decide

/-- Claim C4 (amended): when the selected file loads to an expired
    credential object with no refresh token, get_credentials raises a
    generic exception whose message reads Credentials expired. Please run
    authenticate.py again. (mentioning both expiry and re-authentication),
    returns no credential object, leaves the directory unchanged and
    issues no refresh request. -/
theorem get_credentials_expired_no_refresh (env : AuthEnv) (d : CredDir) (tf : TokenFile)
    (hsel : get_token_path d = .found tf)
    (hexp : (env.load tf.content).expired = true)
    (href : (env.load tf.content).hasRefreshToken = false) :
    get_credentials env d =
      ⟨.err ("Credentials expired. Please run authenticate.py again."), d, 0⟩ := by
  unfold get_credentials
  rw [hsel]
  simp [Credentials.valid, hexp, href]

theorem get_credentials_expired_no_refresh_witness :
    get_token_path dirOnePlain = .found ⟨"u.json", 1, "TOK"⟩ ∧
    (envExpiredNoRefresh.load ("TOK")).expired = true ∧
    (envExpiredNoRefresh.load ("TOK")).hasRefreshToken = false ∧
    get_credentials envExpiredNoRefresh dirOnePlain =
      ⟨.err ("Credentials expired. Please run authenticate.py again."), dirOnePlain, 0⟩ :=
  ⟨by decide, by decide, by decide,
   get_credentials_expired_no_refresh envExpiredNoRefresh dirOnePlain ⟨"u.json", 1, "TOK"⟩
     (by decide) (by decide) (by decide)⟩

/-- Claim C5: when the selected file loads to a valid (non-expired)
    credential object, get_credentials returns it immediately, the
    directory state is unchanged, and no refresh request is issued. -/
theorem get_credentials_valid_returns_immediately (env : AuthEnv) (d : CredDir) (tf : TokenFile)
    (hsel : get_token_path d = .found tf)
    (hval : (env.load tf.content).valid = true) :
    get_credentials env d = ⟨.ok (env.load tf.content), d, 0⟩ := by
  unfold get_credentials
  rw [hsel]
  simp [hval]

theorem get_credentials_valid_returns_immediately_witness :
    get_token_path dirOneValid = .found ⟨"v.json", 7, "FRESH"⟩ ∧
    (envValid.load ("FRESH")).valid = true ∧
    get_credentials envValid dirOneValid = ⟨.ok (envValid.load ("FRESH")), dirOneValid, 0⟩ :=
  ⟨by decide, by decide,
   get_credentials_valid_returns_immediately envValid dirOneValid ⟨"v.json", 7, "FRESH"⟩
     (by decide) (by decide)⟩

/-- Claim C6: when json.loads rejects the values parameter, sheets_write
    and sheets_append both return the fixed error string and issue no
    request to the Sheets API. -/
theorem sheets_invalid_json_fixed_error (api : SheetsApi) (loads : String → Option SheetValues)
    (sid rng vals : String) (h : loads vals = none) :
    sheets_write api loads sid rng vals = ("❌ Error: values must be valid JSON array", []) ∧
    sheets_append api loads sid rng vals = ("❌ Error: values must be valid JSON array", []) := by
  constructor <;> simp [sheets_write, sheets_append, h]

theorem sheets_invalid_json_fixed_error_witness :
    loadsFail ("not json") = none ∧
    (sheets_write sheetsApi0 loadsFail ("sid") ("Sheet1!A1:B2") ("not json") =
       ("❌ Error: values must be valid JSON array", []) ∧
     sheets_append sheetsApi0 loadsFail ("sid") ("Sheet1!A1:B2") ("not json") =
       ("❌ Error: values must be valid JSON array", [])) :=
  ⟨rfl, sheets_invalid_json_fixed_error sheetsApi0 loadsFail ("sid") ("Sheet1!A1:B2") ("not json") rfl⟩

/-- Claim C8: the string returned by gmail_send contains both the message
    id of the response and the to address; in particular, sending with to
    a@b.com, subject Hi, body Hello against a backend answering with id
    123 yields a string containing 123 and a@b.com. -/
theorem gmail_send_contains_id_and_to (sent_id toAddr subject body : String) (cc : Option String) :
    strContains (gmail_send sent_id toAddr subject body cc) sent_id ∧
    strContains (gmail_send sent_id toAddr subject body cc) toAddr ∧
    strContains (gmail_send ("123") ("a@b.com") ("Hi") ("Hello") none) ("123") ∧
    strContains (gmail_send ("123") ("a@b.com") ("Hi") ("Hello") none) ("a@b.com") := by
  refine ⟨⟨"✅ Email sent!\nMessage ID: ", "\nTo: " ++ (toAddr ++ ("\nSubject: " ++ subject)), ?_⟩,
    ⟨"✅ Email sent!\nMessage ID: " ++ (sent_id ++ "\nTo: "), "\nSubject: " ++ subject, ?_⟩,
    ⟨"✅ Email sent!\nMessage ID: ", "\nTo: a@b.com\nSubject: Hi", ?_⟩,
    ⟨"✅ Email sent!\nMessage ID: 123\nTo: ", "\nSubject: Hi", ?_⟩⟩
  · simp only [gmail_send, String.append_assoc]
  · simp only [gmail_send, String.append_assoc]
  · decide
  · decide

/-- Claim C9: for every exception message raised by the remote call, both
    drive_list_revisions and forms_list_responses return a string that is
    prefixed with ❌ Error and contains the message, instead of
    propagating the exception. -/
theorem catch_and_format_remote_errors (file_id form_id e : String) :
    strStarts (drive_list_revisions file_id (.failure e)) ("❌ Error") ∧
    strContains (drive_list_revisions file_id (.failure e)) e ∧
    strStarts (forms_list_responses form_id (.failure e)) ("❌ Error") ∧
    strContains (forms_list_responses form_id (.failure e)) e := by
  refine ⟨⟨" listing revisions: " ++
      (e ++ "\nNote: Revisions are only available for Google Docs, Sheets, and Slides."), ?_⟩,
    ⟨"❌ Error listing revisions: ",
      "\nNote: Revisions are only available for Google Docs, Sheets, and Slides.", ?_⟩,
    ⟨" listing responses: " ++ e, ?_⟩,
    ⟨"❌ Error listing responses: ", "", ?_⟩⟩
  · simp only [drive_list_revisions, String.append_assoc]
    rfl
  · simp only [drive_list_revisions, String.append_assoc]
  · simp only [forms_list_responses, String.append_assoc]
    rfl
  · simp only [forms_list_responses, String.append_assoc, String.append_empty]

theorem foldl_append_extends (g : String → String) (l : List String) :
    ∀ init : String, ∃ rest, l.foldl (fun o e => o ++ g e) init = init ++ rest := by
  induction l with
  | nil =>
    intro init
    exact ⟨"", (String.append_empty init).symm⟩
  | cons x xs ih =>
    intro init
    obtain ⟨rest, hr⟩ := ih (init ++ g x)
    refine ⟨g x ++ rest, ?_⟩
    simp only [List.foldl_cons]
    rw [hr, String.append_assoc]

theorem deleteStep_foldl_counts (api : String → Option String) (l : List String) :
    ∀ acc : DeleteAcc,
      (l.foldl (deleteStep api) acc).success_count
        = acc.success_count + (l.filter (fun i => (api i).isNone)).length ∧
      (l.foldl (deleteStep api) acc).error_count
        = acc.error_count + (l.filter (fun i => (api i).isSome)).length := by
  induction l with
  | nil =>
    intro acc
    simp
  | cons x xs ih =>
    intro acc
    obtain ⟨h1, h2⟩ := ih (deleteStep api acc x)
    rw [List.foldl_cons]
    cases hx : api x with
    | none =>
      refine ⟨?_, ?_⟩
      · rw [h1]
        simp [deleteStep, hx, List.filter_cons]
        omega
      · rw [h2]
        simp [deleteStep, hx, List.filter_cons]
    | some err =>
      refine ⟨?_, ?_⟩
      · rw [h1]
        simp [deleteStep, hx, List.filter_cons]
      · rw [h2]
        simp [deleteStep, hx, List.filter_cons]
        omega

theorem batchDeleteOutput_starts (s n : Nat) (errs : List String) :
    ∃ tail, batchDeleteOutput s n errs
      = ("✅ Deleted " ++ Nat.repr s ++ " file(s)\n") ++ tail := by
  unfold batchDeleteOutput
  obtain ⟨rest, hr⟩ := foldl_append_extends (fun e => "  - " ++ e ++ "\n") (errs.take 10)
    (("✅ Deleted " ++ Nat.repr s ++ " file(s)\n") ++
     ("❌ Failed to delete " ++ Nat.repr n ++ " file(s):\n"))
  by_cases hn : n > 0
  · rw [if_pos hn]
    by_cases hl : errs.length > 10
    · rw [if_pos hl, hr]
      refine ⟨("❌ Failed to delete " ++ Nat.repr n ++ " file(s):\n") ++
        (rest ++ ("  ... and " ++ Nat.repr (errs.length - 10) ++ " more errors\n")), ?_⟩
      rw [String.append_assoc, String.append_assoc]
    · rw [if_neg hl, hr]
      exact ⟨("❌ Failed to delete " ++ Nat.repr n ++ " file(s):\n") ++ rest,
        String.append_assoc _ _ _⟩
  · rw [if_neg hn]
    exact ⟨"", (String.append_empty _).symm⟩

theorem batchDeleteOutput_successline (s n : Nat) (errs : List String) :
    strContains (batchDeleteOutput s n errs) ("✅ Deleted " ++ Nat.repr s ++ " file(s)") := by
  obtain ⟨tail, ht⟩ := batchDeleteOutput_starts s n errs
  rw [ht]
  refine strContains_of_starts (strStarts_appendRight ?_ tail)
  refine ⟨"\n", ?_⟩
  simp only [String.append_assoc]
  rfl

theorem batchDeleteOutput_failline (s n : Nat) (errs : List String) (hn : 0 < n) :
    strContains (batchDeleteOutput s n errs)
      ("❌ Failed to delete " ++ Nat.repr n ++ " file(s)") := by
  have hH : strContains ("❌ Failed to delete " ++ Nat.repr n ++ " file(s):\n")
      ("❌ Failed to delete " ++ Nat.repr n ++ " file(s)") := by
    refine ⟨"", ":\n", ?_⟩
    simp only [String.empty_append, String.append_assoc]
    rfl
  unfold batchDeleteOutput
  obtain ⟨rest, hr⟩ := foldl_append_extends (fun e => "  - " ++ e ++ "\n") (errs.take 10)
    (("✅ Deleted " ++ Nat.repr s ++ " file(s)\n") ++
     ("❌ Failed to delete " ++ Nat.repr n ++ " file(s):\n"))
  rw [if_pos hn]
  by_cases hl : errs.length > 10
  · rw [if_pos hl, hr]
    exact strContains_appendRight _ (strContains_appendRight _ (strContains_appendLeft _ hH))
  · rw [if_neg hl, hr]
    exact strContains_appendRight _ (strContains_appendLeft _ hH)

/-- Claim C7: drive_batch_delete issues exactly one delete call per comma
    separated id, in order, continuing past per-element failures; it
    counts successes and failures exactly, and its returned string reports
    the success count and, whenever a failure occurred, the failure
    count. -/
theorem drive_batch_delete_reports (api : String → Option String) (file_ids : String) :
    (drive_batch_delete api file_ids).calls = splitIds file_ids ∧
    (drive_batch_delete api file_ids).success_count
      = ((splitIds file_ids).filter (fun i => (api i).isNone)).length ∧
    (drive_batch_delete api file_ids).error_count
      = ((splitIds file_ids).filter (fun i => (api i).isSome)).length ∧
    strContains (drive_batch_delete api file_ids).output
      ("✅ Deleted " ++ Nat.repr (drive_batch_delete api file_ids).success_count ++ " file(s)") ∧
    (0 < (drive_batch_delete api file_ids).error_count →
      strContains (drive_batch_delete api file_ids).output
        ("❌ Failed to delete " ++
          Nat.repr (drive_batch_delete api file_ids).error_count ++ " file(s)")) := by
  obtain ⟨hs, he⟩ := deleteStep_foldl_counts api (splitIds file_ids) ⟨0, 0, []⟩
  refine ⟨rfl, ?_, ?_, ?_, ?_⟩
  · simpa using hs
  · simpa using he
  · exact batchDeleteOutput_successline _ _ _
  · intro hn
    exact batchDeleteOutput_failline _ _ _ hn

theorem drive_batch_delete_reports_witness :
    0 < (drive_batch_delete apiSecondFails ("a,b,c")).error_count ∧
    (drive_batch_delete apiSecondFails ("a,b,c")).calls = ["a", "b", "c"] ∧
    (drive_batch_delete apiSecondFails ("a,b,c")).success_count = 2 ∧
    (drive_batch_delete apiSecondFails ("a,b,c")).error_count = 1 ∧
    (drive_batch_delete apiSecondFails ("a,b,c")).output =
      "✅ Deleted 2 file(s)\n❌ Failed to delete 1 file(s):\n  - b: boom\n" ∧
    strContains (drive_batch_delete apiSecondFails ("a,b,c")).output
      ("❌ Failed to delete " ++
        Nat.repr (drive_batch_delete apiSecondFails ("a,b,c")).error_count ++ " file(s)") :=
  ⟨by decide, by decide, by decide, by decide, by decide,
   (drive_batch_delete_reports apiSecondFails ("a,b,c")).2.2.2.2 (by decide)⟩

/-- Claim C10: drive_batch_get_metadata issues a metadata request exactly
    for the first twenty ids of the comma separated list, in order, never
    for an id past the twentieth, and when more than twenty ids were given
    appends the trailing note naming the number of ids left out. -/
theorem drive_batch_get_metadata_limit (api : String → ApiOutcome FileMeta) (file_ids : String) :
    (drive_batch_get_metadata api file_ids).2 = (splitIds file_ids).take 20 ∧
    (20 < (splitIds file_ids).length →
      ∃ body, drive_batch_get_metadata api file_ids
        = (body ++ ("... and " ++ Nat.repr ((splitIds file_ids).length - 20) ++
            " more files (limit: 20)\n"),
           (splitIds file_ids).take 20)) := by
  refine ⟨rfl, ?_⟩
  intro h
  refine ⟨((splitIds file_ids).take 20).foldl (fun o fid => o ++ formatMetaBlock fid (api fid))
    ("Metadata for " ++ Nat.repr (splitIds file_ids).length ++ " file(s):\n\n"), ?_⟩
  unfold drive_batch_get_metadata
  rw [if_pos h]

theorem drive_batch_get_metadata_limit_witness :
    20 < (splitIds ids21).length ∧
    (drive_batch_get_metadata (fun _ => .failure ("e")) ids21).2 = (splitIds ids21).take 20 ∧
    (∃ body, drive_batch_get_metadata (fun _ => .failure ("e")) ids21
      = (body ++ ("... and " ++ Nat.repr ((splitIds ids21).length - 20) ++
          " more files (limit: 20)\n"),
         (splitIds ids21).take 20)) :=
  ⟨by decide,
   (drive_batch_get_metadata_limit (fun _ => .failure ("e")) ids21).1,
   (drive_batch_get_metadata_limit (fun _ => .failure ("e")) ids21).2 (by decide)⟩

end GoogleMCP
